import Mathlib

/-!
Shallow embedding of the browser-side logic of the RAG document-search
frontend (static/js: search client, answer rendering, document management).
Each definition mirrors one JavaScript function of the repository; strings
are modelled by Lean strings (code units abstracted as characters), JS
numbers carrying similarity scores by rationals, and absent or null JS
values by Option.
-/

namespace RAG

/-! ### Models of JavaScript primitives -/

/-- Numeric value of a list of decimal digit characters, most significant
first, as produced by the leading-digit run that parseInt consumes.
Returns none when no digit is present (parseInt would yield NaN). -/
def digitsVal (cs : List Char) : Option Nat :=
  let ds := cs.takeWhile Char.isDigit
  if ds = [] then none
  else some (ds.foldl (fun acc c => 10 * acc + (c.toNat - '0'.toNat)) 0)

/-- Model of JavaScript parseInt on a string: skip leading whitespace,
read an optional sign, then the longest run of decimal digits; none models
the NaN result when no digits follow. -/
def jsParseInt (s : String) : Option Int :=
  let cs := s.data.dropWhile (fun c => c == ' ' || c == '\t' || c == '\n' || c == '\r')
  match cs with
  | '-' :: rest => (digitsVal rest).map (fun n => -(n : Int))
  | '+' :: rest => (digitsVal rest).map (fun n => (n : Int))
  | rest => (digitsVal rest).map (fun n => (n : Int))

/-- JS truthiness of a possibly-absent string: null/undefined and the empty
string are falsy. -/
def jsTruthyStr (x : Option String) : Bool :=
  match x with
  | none => false
  | some s => decide (s ≠ "")

/-- JS truthiness of a possibly-absent number (similarity scores): absent
and zero are falsy. -/
def jsTruthyRat (x : Option ℚ) : Bool :=
  match x with
  | none => false
  | some v => decide (v ≠ 0)

/-- JS truthiness of a possibly-absent natural number field. -/
def jsTruthyNat (x : Option Nat) : Bool :=
  match x with
  | none => false
  | some n => decide (n ≠ 0)

/-- The JS idiom x or-else d on strings: d when x is absent or empty. -/
def jsStrOr (x : Option String) (d : String) : String :=
  match x with
  | none => d
  | some s => if s = "" then d else s

/-- Model of arr.slice(start, end) for already-clamped nonnegative
indices: the elements with positions in [start, end). -/
def jsSlice (l : List α) (s e : Nat) : List α :=
  (l.take e).drop s

/-- Model of Math.ceil(n / k) for natural n and positive k, as used with
k = number of source documents (the code only evaluates it when k > 0). -/
def jsCeilDiv (n k : Nat) : Nat :=
  (n + k - 1) / k

/-! ### formatText (search.js / part_000 line 75 and part_001 line 231)

    function formatText(text): if (!text) return ''; then replace every
    newline, globally, by the four characters of a br tag. The regex
    pattern is the single newline character, so the global replace acts
    independently on each character. -/

/-- Character-level body of the global newline replacement. -/
def replaceNl : List Char → List Char
  | [] => []
  | c :: cs =>
    if c = '\n' then '<' :: 'b' :: 'r' :: '>' :: replaceNl cs
    else c :: replaceNl cs

/-- formatText on a definite string argument. -/
def formatTextStr (text : String) : String :=
  if text = "" then ""
  else String.mk (replaceNl text.data)

/-- formatText including the null/undefined argument case caught by the
falsiness guard. -/
def formatText (text : Option String) : String :=
  match text with
  | none => ""
  | some s => formatTextStr s

/-! ### truncateText (documents.js / part_002 lines 331-335)

    if (!text) return ''; if (text.length <= maxLength) return text;
    return text.substring(0, maxLength) + '...'; -/

/-- truncateText, with substring(0, maxLength) modelled as taking the
first maxLength characters. -/
def truncateText (text : String) (maxLength : Nat) : String :=
  if text = "" then ""
  else if text.length ≤ maxLength then text
  else String.mk (text.data.take maxLength) ++ "..."

/-! ### Search request construction

Two client paths build the JSON body for the query endpoint:
- part_000 performSearch(query, maxDocuments, includeImages = true):
  max_documents: parseInt(maxDocuments || 3), include_images: includeImages;
- part_001 performSearch reads the inputs itself:
  const maxDocuments = parseInt(maxDocumentsInput.value);
  max_documents: isNaN(maxDocuments) ? 3 : maxDocuments,
  include_images: includeImagesCheckbox.checked. -/

/-- The JSON request body for the query endpoint. max_documents is Option
because JSON.stringify serialises NaN as null (none). -/
structure SearchRequest where
  query : String
  max_documents : Option Int
  include_images : Bool
deriving DecidableEq

/-- Request built by part_000 performSearch: maxDocuments is the raw input
string, includeImages the optional third argument whose default parameter
value is true. The or-else with 3 applies before parsing, so an empty
string yields parseInt(3) = 3 and any other string is parsed as is. -/
def mkRequestPart000 (query : String) (maxDocuments : String)
    (includeImages : Option Bool) : SearchRequest :=
  { query := query
    max_documents :=
      if maxDocuments = "" then some 3 else jsParseInt maxDocuments
    include_images := includeImages.getD true }

/-- Request built by part_001 performSearch: the input value is parsed
first and the NaN check replaces a failed parse by 3; checked is the state
of the include-images checkbox. -/
def mkRequestPart001 (query : String) (maxDocumentsRaw : String)
    (checked : Bool) : SearchRequest :=
  { query := query
    max_documents :=
      some (match jsParseInt maxDocumentsRaw with
            | none => 3
            | some n => n)
    include_images := checked }

/-- Initial state of the include-images checkbox: the part_003 markup
declares it with the checked attribute, so its default state is true. -/
def includeImagesCheckboxDefault : Bool := true

/-! ### uploadDocument (documents.js / part_002 lines 42-107)

The handler reads the selected file, rejects a missing selection, computes
the lowercase final extension via name.split of a dot then pop, rejects
extensions outside pdf/pptx with an error message before the fetch, and
otherwise issues the upload request. -/

/-- What the upload handler does before and instead of the network call. -/
inductive UploadOutcome where
  | noFileSelected
  | unsupportedFormat (msg : String)
  | uploadRequested (fileName : String)
deriving DecidableEq

/-- Character-level model of String.prototype.split on a one-character
separator: the maximal separator-free segments, with empty segments kept,
as JS produces them. -/
def splitOnChar (sep : Char) : List Char → List (List Char)
  | [] => [[]]
  | c :: cs =>
    let r := splitOnChar sep cs
    if c = sep then [] :: r
    else (c :: r.headD []) :: r.tail

/-- Lowercase final extension, as computed by
file.name.split of a dot, then pop, then toLowerCase: the segment after
the last dot (the whole name when it has no dot), lowercased. -/
def fileExtOf (name : String) : String :=
  String.mk (((splitOnChar '.' name.data).getLastD []).map Char.toLower)

/-- The upload handler up to the point where the request would be issued;
file is the selected file name, none when no file is selected. The error
returns happen before any fetch, hence before any folder could be created
server-side. -/
def uploadDocument (file : Option String) : UploadOutcome :=
  match file with
  | none => .noFileSelected
  | some name =>
    let fileExt := fileExtOf name
    if ¬ (["pdf", "pptx"].contains fileExt) then
      .unsupportedFormat "PDF 또는 PPTX 파일만 업로드 가능합니다."
    else
      .uploadRequested name

/-! ### displayDocumentList (documents.js / part_002 lines 172-195)

The list is sorted with a comparator that, when both created_at fields
are truthy, returns the Date difference of b and a, and otherwise returns
a.folder_name.localeCompare(b.folder_name).

created_at is modelled as an optional timestamp (none for an absent or
empty field, both falsy in JS); the Date difference is the difference of
timestamps. localeCompare is modelled by the character-wise ordering of
the names. Array.prototype.sort is stable, modelled by a stable insertion
sort driven by the comparator. -/

/-- One entry of the documents list response, restricted to the fields the
sort comparator reads (the remaining fields only feed the rendered card). -/
structure DocMeta where
  folder_name : String
  created_at : Option Nat
deriving DecidableEq

/-- Three-way string comparison modelling localeCompare's sign. -/
def strCmpInt (a b : String) : Int :=
  match compare a b with
  | .lt => -1
  | .eq => 0
  | .gt => 1

/-- The sort comparator of displayDocumentList. -/
def cmpDocs (a b : DocMeta) : Int :=
  match a.created_at, b.created_at with
  | some ta, some tb => (tb : Int) - (ta : Int)
  | _, _ => strCmpInt a.folder_name b.folder_name

/-- Stable insertion with respect to a JS-style comparator: x is placed
before the first element it does not compare after, so equal elements keep
their original relative order, as the stable Array.prototype.sort does. -/
def insertCmp (cmp : α → α → Int) (x : α) : List α → List α
  | [] => [x]
  | y :: ys => if cmp x y ≤ 0 then x :: y :: ys else y :: insertCmp cmp x ys

/-- Stable sort by a JS-style comparator. -/
def sortByCmp (cmp : α → α → Int) : List α → List α
  | [] => []
  | x :: xs => insertCmp cmp x (sortByCmp cmp xs)

/-- Order in which displayDocumentList renders the document cards (the
empty list renders a placeholder instead, so its order is the empty one
either way). -/
def displayDocumentList (documents : List DocMeta) : List DocMeta :=
  sortByCmp cmpDocs documents

/-! ### Answer rendering

Two display paths exist for the query response:
- part_001 displayAnswer / createSourceDocumentElement (search.js path);
- part_002 lines 402-513 displayAnswer (ui.js path).
The response objects are untyped JS; one structure with optional fields
models the union of the fields either path reads. -/

/-- A source-document entry of the query response. Scores are rationals
(the model of the JS numbers carrying similarities). -/
structure SourceDoc where
  folder_name : Option String
  page_number : Option Nat
  searchScore : Option ℚ
  similarity : Option ℚ
  summary : Option String
  text : Option String
  key_information : Option String
  images : List String
deriving DecidableEq

/-- The query response body as read by the display paths. -/
structure AnswerData where
  answer : Option String
  source_documents : List SourceDoc
  images : List String
deriving DecidableEq

/-- What createSourceDocumentElement (part_001 lines 143-221) puts into
the DOM for one source document. -/
structure SourceDocRender where
  title : String
  scoreShown : Option ℚ
  summaryShown : Option String
  textPreview : Option String
  imagesShown : List String
  moreImagesCount : Option Nat
deriving DecidableEq

/-- part_001 createSourceDocumentElement: title from folder_name with a
fallback and an optional page suffix; score element only when searchScore
is truthy; summary only when truthy; text preview truncated to 300
characters plus an ellipsis when longer; at most the first three images,
with an overflow count element when more than three exist (the images
block is only built when the list is nonempty). -/
def createSourceDocumentElement (doc : SourceDoc) : SourceDocRender :=
  { title :=
      jsStrOr doc.folder_name "문서" ++
        (if jsTruthyNat doc.page_number then
          " (페이지 " ++ toString (doc.page_number.getD 0) ++ ")"
        else "")
    scoreShown := if jsTruthyRat doc.searchScore then doc.searchScore else none
    summaryShown := if jsTruthyStr doc.summary then doc.summary else none
    textPreview :=
      match doc.text with
      | none => none
      | some t =>
        if t = "" then none
        else if t.length > 300 then some (String.mk (t.data.take 300) ++ "...")
        else some t
    imagesShown := if doc.images.length > 0 then doc.images.take 3 else []
    moreImagesCount :=
      if doc.images.length > 0 then
        if doc.images.length > 3 then some (doc.images.length - 3) else none
      else none }

/-- What the ui.js path (part_002 lines 423-499) puts into the DOM for the
source document at position index. -/
structure UiDocRender where
  name : String
  similarityShown : Option ℚ
  keyInfoShown : Option String
  galleryImages : List String
deriving DecidableEq

/-- part_002 per-document rendering: name with an indexed fallback,
similarity element only when truthy, key information only when truthy, and
a gallery cut from the answer-level image list by even index
splitting: imagesPerDoc = ceil of the image count over the document count,
startIdx = index times imagesPerDoc, endIdx = min(startIdx + imagesPerDoc,
image count), gallery = images.slice(startIdx, endIdx). The whole gallery
block is skipped when the answer has no images. -/
def renderUiSourceDoc (data : AnswerData) (doc : SourceDoc)
    (index : Nat) : UiDocRender :=
  { name := jsStrOr doc.folder_name ("문서 " ++ toString (index + 1))
    similarityShown := if jsTruthyRat doc.similarity then doc.similarity else none
    keyInfoShown := if jsTruthyStr doc.key_information then doc.key_information else none
    galleryImages :=
      if data.images.length > 0 then
        let imagesPerDoc := jsCeilDiv data.images.length data.source_documents.length
        let startIdx := index * imagesPerDoc
        let endIdx := min (startIdx + imagesPerDoc) data.images.length
        jsSlice data.images startIdx endIdx
      else [] }

/-- Paragraph rendering shared by both displayAnswer paths: split the
answer on blank lines, drop whitespace-only paragraphs, and pass each one
through formatText. -/
def answerParagraphs (answer : String) : List String :=
  (answer.splitOn "\n\n").filterMap
    (fun p => if p.trim = "" then none else some (formatTextStr p))

/-- Main answer area content in the ui.js path. -/
inductive UiMain where
  | paragraphs (ps : List String)
  | noResultsMsg
deriving DecidableEq

/-- Source-documents area content in the ui.js path: rendered documents, the
no-reference-documents message, or cleared to empty. -/
inductive UiSources where
  | docs (ds : List UiDocRender)
  | noSourcesMsg
  | cleared
deriving DecidableEq

/-- Rendered state produced by the ui.js displayAnswer. -/
structure UiAnswerRender where
  mainAnswer : UiMain
  sources : UiSources
deriving DecidableEq

/-- part_002 displayAnswer: when data.answer is truthy, render its
paragraphs and the per-document blocks (or the no-reference message when
the list is empty); otherwise show the no-results message in the main area
and clear the source area. -/
def displayAnswerUi (data : AnswerData) : UiAnswerRender :=
  if jsTruthyStr data.answer then
    { mainAnswer := .paragraphs (answerParagraphs (data.answer.getD ""))
      sources :=
        if data.source_documents.length > 0 then
          .docs (data.source_documents.mapIdx
            (fun i doc => renderUiSourceDoc data doc i))
        else .noSourcesMsg }
  else
    { mainAnswer := .noResultsMsg, sources := .cleared }

/-- Outcome of the search.js displayAnswer (part_001 lines 108-140): a
falsy answer shows an error message and returns before touching the answer
or source areas; otherwise paragraphs and source documents are rendered. -/
inductive SearchAnswerRender where
  | errorShown (msg : String)
  | rendered (paragraphs : List String) (sources : Option (List SourceDocRender))
deriving DecidableEq

/-- part_001 displayAnswer: if (!data.answer) show the error message and
return; else render paragraphs and either the source document elements or
(with none here) the no-reference-documents message. -/
def displayAnswerSearch (data : AnswerData) : SearchAnswerRender :=
  if jsTruthyStr data.answer then
    .rendered (answerParagraphs (data.answer.getD ""))
      (if data.source_documents.length > 0 then
        some (data.source_documents.map createSourceDocumentElement)
      else none)
  else
    .errorShown "생성된 답변이 없습니다."

/-- Sample response document with every optional field absent. -/
def emptySourceDoc : SourceDoc :=
  ⟨none, none, none, none, none, none, none, []⟩

/-- Sample answer payload: two source documents and three answer-level
images, exercising the even index split of the gallery. -/
def sampleAnswerData : AnswerData :=
  ⟨some "ans", [emptySourceDoc, emptySourceDoc], ["i1", "i2", "i3"]⟩

/-- Modelled from the claim being checked against the code: the document at
position i receives the half-open slice of the answer-level images from
i times c up to min of (i+1) times c and n, where n is the image count, k
the document count and c the ceiling of n over k. -/
def claimEvenSplitSlice (images : List String) (k i : Nat) : List String :=
  let c := (images.length + k - 1) / k
  (images.drop (i * c)).take (min ((i + 1) * c) images.length - i * c)

/-! ## Helper lemmas -/

theorem replaceNl_no_newline (l : List Char) : '\n' ∉ replaceNl l := by
  induction l with
  | nil => simp [replaceNl]
  | cons c cs ih =>
    by_cases h : c = '\n'
    · simp only [replaceNl, if_pos h, List.mem_cons]
      push_neg
      exact ⟨by decide, by decide, by decide, by decide, ih⟩
    · simp only [replaceNl, if_neg h, List.mem_cons]
      push_neg
      exact ⟨fun hh => h hh.symm, ih⟩

theorem replaceNl_of_no_newline (l : List Char) (h : '\n' ∉ l) :
    replaceNl l = l := by
  induction l with
  | nil => rfl
  | cons c cs ih =>
    simp only [List.mem_cons] at h
    push_neg at h
    simp only [replaceNl]
    rw [if_neg (fun hc => h.1 hc.symm), ih h.2]

theorem replaceNl_idem (l : List Char) :
    replaceNl (replaceNl l) = replaceNl l :=
  replaceNl_of_no_newline _ (replaceNl_no_newline l)

theorem replaceNl_nil_iff (l : List Char) : replaceNl l = [] ↔ l = [] := by
  cases l with
  | nil => simp [replaceNl]
  | cons c cs => by_cases h : c = '\n' <;> simp [replaceNl, h]

theorem formatTextStr_idem (s : String) :
    formatTextStr (formatTextStr s) = formatTextStr s := by
  unfold formatTextStr
  by_cases h : s = ""
  · simp [h]
  · rw [if_neg h]
    have hd : s.data ≠ [] := fun hh => h (String.ext hh)
    have h2 : String.mk (replaceNl s.data) ≠ "" := by
      intro hh
      exact hd ((replaceNl_nil_iff s.data).mp (String.ext_iff.mp hh))
    rw [if_neg h2]
    exact congrArg String.mk (replaceNl_idem s.data)

/-! ## Claim theorems -/

/-- C9: formatText is idempotent — applying it twice equals applying it
once, its output contains no newline character, and a null or empty
argument yields the empty string. -/
theorem formatText_idem_c9 (t : Option String) :
    formatText (some (formatText t)) = formatText t
    ∧ '\n' ∉ (formatText t).data
    ∧ formatText none = "" ∧ formatText (some "") = "" := by
  refine ⟨?_, ?_, rfl, by simp [formatText, formatTextStr]⟩
  · cases t with
    | none =>
      show formatTextStr "" = ""
      simp [formatTextStr]
    | some s => exact formatTextStr_idem s
  · cases t with
    | none =>
      show '\n' ∉ ("" : String).data
      decide
    | some s =>
      show '\n' ∉ (formatTextStr s).data
      unfold formatTextStr
      by_cases h : s = ""
      · rw [if_pos h]
        decide
      · rw [if_neg h]
        exact replaceNl_no_newline s.data

/-- C8: truncateText returns its argument unchanged when its length is at
most the bound, and otherwise the first maxLength characters followed by an
ellipsis, of length exactly maxLength + 3; the source-text excerpt of
createSourceDocumentElement renders exactly truncateText with bound 300
whenever the text field is present and nonempty, and nothing otherwise. -/
theorem truncateText_spec_c8 (text : String) (maxLength : Nat) :
    (text.length ≤ maxLength → truncateText text maxLength = text)
    ∧ (maxLength < text.length →
        truncateText text maxLength = String.mk (text.data.take maxLength) ++ "..."
        ∧ (truncateText text maxLength).length = maxLength + 3)
    ∧ (∀ doc : SourceDoc, doc.text = some text →
        (createSourceDocumentElement doc).textPreview =
          (if text = "" then none else some (truncateText text 300))) := by
  refine ⟨?_, ?_, ?_⟩
  · intro h
    unfold truncateText
    by_cases he : text = ""
    · simp [he]
    · rw [if_neg he, if_pos h]
  · intro h
    have he : text ≠ "" := by
      intro hh
      rw [hh] at h
      simp at h
    refine ⟨?_, ?_⟩
    · unfold truncateText
      rw [if_neg he, if_neg (by omega)]
    · unfold truncateText
      rw [if_neg he, if_neg (by omega), String.length_append]
      show (text.data.take maxLength).length + ("..." : String).length = maxLength + 3
      rw [List.length_take]
      have h3 : ("..." : String).length = 3 := rfl
      have hl : text.length = text.data.length := rfl
      rw [h3]
      omega
  · intro doc hdoc
    simp only [createSourceDocumentElement, hdoc, truncateText]
    split_ifs <;> first | rfl | omega

/-- C8 witness: the three cases of the truncation theorem at concrete
inputs. -/
theorem truncateText_spec_c8_witness :
    ("hello".length ≤ 10 ∧ truncateText "hello" 10 = "hello")
    ∧ (3 < "hello".length
        ∧ truncateText "hello" 3 = String.mk ("hello".data.take 3) ++ "..."
        ∧ (truncateText "hello" 3).length = 3 + 3)
    ∧ ((SourceDoc.mk none none none none none (some "hi") none []).text = some "hi"
        ∧ (createSourceDocumentElement ⟨none, none, none, none, none, some "hi", none, []⟩).textPreview
            = (if "hi" = "" then none else some (truncateText "hi" 300))) :=
  ⟨⟨by decide, (truncateText_spec_c8 "hello" 10).1 (by decide)⟩,
   ⟨by decide,
    ((truncateText_spec_c8 "hello" 3).2.1 (by decide)).1,
    ((truncateText_spec_c8 "hello" 3).2.1 (by decide)).2⟩,
   ⟨rfl, (truncateText_spec_c8 "hi" 300).2.2 _ rfl⟩⟩

/-- C1 counterexample: an out-of-range numeric input is sent unclamped —
with the max-documents field reading 99, the part_001 client sends
max_documents = 99, outside the 1–10 range the claim asserts; moreover the
part_000 client sends NaN (serialised null), not 3, for the non-numeric
input abc. -/
theorem maxDocuments_claim_counterexample_c1 :
    (mkRequestPart001 "q" "99" true).max_documents = some 99
    ∧ ¬ ((1 : Int) ≤ 99 ∧ (99 : Int) ≤ 10)
    ∧ (mkRequestPart000 "q" "abc" none).max_documents = none :=
  ⟨by decide, by decide, by decide⟩

/-- C1 amended: the part_001 client defaults max_documents to 3 exactly
when the input fails to parse, and otherwise sends the parsed value
unchanged, with no clamping to 1–10; the part_000 client defaults to 3
only when the input is absent or empty, and otherwise sends the raw parse
result, so a non-numeric nonempty input yields NaN rather than 3. -/
theorem maxDocuments_amended_c1 (q m : String) (c : Bool) (n : Int) :
    (jsParseInt m = none → (mkRequestPart001 q m c).max_documents = some 3)
    ∧ (jsParseInt m = some n → (mkRequestPart001 q m c).max_documents = some n)
    ∧ (m = "" → (mkRequestPart000 q m none).max_documents = some 3)
    ∧ (m ≠ "" → (mkRequestPart000 q m none).max_documents = jsParseInt m) := by
  refine ⟨?_, ?_, ?_, ?_⟩
  · intro h
    simp [mkRequestPart001, h]
  · intro h
    simp [mkRequestPart001, h]
  · intro h
    simp [mkRequestPart000, h]
  · intro h
    simp [mkRequestPart000, h]

/-- C1 witness: the four branches of the amended statement at concrete
inputs. -/
theorem maxDocuments_amended_c1_witness :
    (mkRequestPart001 "q" "abc" true).max_documents = some 3
    ∧ (mkRequestPart001 "q" "99" true).max_documents = some 99
    ∧ (mkRequestPart000 "q" "" none).max_documents = some 3
    ∧ (mkRequestPart000 "q" "7" none).max_documents = jsParseInt "7" :=
  ⟨(maxDocuments_amended_c1 "q" "abc" true 0).1 (by decide),
   (maxDocuments_amended_c1 "q" "99" true 99).2.1 (by decide),
   (maxDocuments_amended_c1 "q" "" true 0).2.2.1 rfl,
   (maxDocuments_amended_c1 "q" "7" true 0).2.2.2 (by decide)⟩

/-- C2: a selected file whose lowercase final extension is neither pdf nor
pptx makes the upload handler stop with the unsupported-format error
message; the outcome constructor records that no upload request is issued,
so no folder can be created server-side. -/
theorem upload_unsupported_c2 (name : String)
    (h1 : fileExtOf name ≠ "pdf") (h2 : fileExtOf name ≠ "pptx") :
    uploadDocument (some name)
      = .unsupportedFormat "PDF 또는 PPTX 파일만 업로드 가능합니다." := by
  simp [uploadDocument]
  exact ⟨h1, h2⟩

/-- C2 witness: a txt file is rejected before any request. -/
theorem upload_unsupported_c2_witness :
    fileExtOf "notes.txt" ≠ "pdf" ∧ fileExtOf "notes.txt" ≠ "pptx"
    ∧ uploadDocument (some "notes.txt")
        = .unsupportedFormat "PDF 또는 PPTX 파일만 업로드 가능합니다." :=
  ⟨by decide, by decide, upload_unsupported_c2 "notes.txt" (by decide) (by decide)⟩

/-- C7: when the caller omits the include-images argument (part_000
default parameter) or leaves the checkbox in its markup default state
(part_001 with the part_003 checked attribute), the request carries
include_images = true. -/
theorem includeImagesDefault_c7 (q m : String) :
    (mkRequestPart000 q m none).include_images = true
    ∧ (mkRequestPart001 q m includeImagesCheckboxDefault).include_images = true :=
  ⟨rfl, rfl⟩

/-- C3 counterexample: two folders with the same present timestamp are
left in their incoming order by the stable sort, because the comparator
returns the timestamp difference 0 without ever consulting the names; the
claimed lexicographic fallback would have put the name a before the name
b. -/
theorem docSort_claim_counterexample_c3 :
    displayDocumentList [⟨"b", some 5⟩, ⟨"a", some 5⟩]
        = [⟨"b", some 5⟩, ⟨"a", some 5⟩]
    ∧ displayDocumentList [⟨"b", some 5⟩, ⟨"a", some 5⟩]
        ≠ [⟨"a", some 5⟩, ⟨"b", some 5⟩] :=
  ⟨by decide, by decide⟩

/-- C3 amended: the list is sorted by created_at descending when both
timestamps are present, and the comparator falls back to lexicographic
folder_name order only when at least one timestamp is absent; when the
comparator ties — in particular on equal present timestamps — the stable
sort preserves the incoming order instead of ordering by name. -/
theorem docSort_amended_c3 (a b : DocMeta) :
    (∀ ta tb, a.created_at = some ta → b.created_at = some tb →
      cmpDocs a b = (tb : Int) - (ta : Int))
    ∧ ((a.created_at = none ∨ b.created_at = none) →
      cmpDocs a b = strCmpInt a.folder_name b.folder_name)
    ∧ (cmpDocs a b = 0 → displayDocumentList [a, b] = [a, b]) := by
  refine ⟨?_, ?_, ?_⟩
  · intro ta tb ha hb
    simp [cmpDocs, ha, hb]
  · intro h
    rcases h with h | h
    · cases hb : b.created_at <;> simp [cmpDocs, h, hb]
    · cases ha : a.created_at <;> simp [cmpDocs, h, ha]
  · intro h
    simp [displayDocumentList, sortByCmp, insertCmp, h]

/-- C3 witness: the three branches of the amended statement at concrete
document records. -/
theorem docSort_amended_c3_witness :
    cmpDocs ⟨"x", some 7⟩ ⟨"y", some 2⟩ = (2 : Int) - 7
    ∧ cmpDocs ⟨"x", none⟩ ⟨"y", some 2⟩ = strCmpInt "x" "y"
    ∧ displayDocumentList [⟨"m", some 4⟩, ⟨"k", some 4⟩]
        = [⟨"m", some 4⟩, ⟨"k", some 4⟩] :=
  ⟨(docSort_amended_c3 ⟨"x", some 7⟩ ⟨"y", some 2⟩).1 7 2 rfl rfl,
   (docSort_amended_c3 ⟨"x", none⟩ ⟨"y", some 2⟩).2.1 (Or.inl rfl),
   (docSort_amended_c3 ⟨"m", some 4⟩ ⟨"k", some 4⟩).2.2 (by decide)⟩

/-- C4: a source document with n images has exactly min(n, 3) of them
rendered, and the overflow element shows the count n − 3 exactly when
n exceeds 3. -/
theorem imagesCap_c4 (doc : SourceDoc) :
    (createSourceDocumentElement doc).imagesShown.length = min doc.images.length 3
    ∧ (createSourceDocumentElement doc).moreImagesCount =
        (if 3 < doc.images.length then some (doc.images.length - 3) else none) := by
  constructor
  · simp only [createSourceDocumentElement]
    by_cases h : doc.images.length > 0
    · rw [if_pos h, List.length_take]
      omega
    · rw [if_neg h]
      simp only [List.length_nil]
      omega
  · simp only [createSourceDocumentElement]
    by_cases h : doc.images.length > 0
    · rw [if_pos h]
    · rw [if_neg h, if_neg (by omega)]

/-- C5: with k > 0 source documents, the gallery rendered for the document
at position i is exactly the even index split the claim describes — the
slice of the answer-level images from i times the ceiling of n over k up
to the minimum of (i+1) times that ceiling and n — so images are cut by
position, independent of which document they came from. -/
theorem evenSplit_c5 (data : AnswerData) (doc : SourceDoc) (i : Nat)
    (_hk : 0 < data.source_documents.length) :
    (renderUiSourceDoc data doc i).galleryImages =
      claimEvenSplitSlice data.images data.source_documents.length i := by
  simp only [renderUiSourceDoc, claimEvenSplitSlice, jsSlice, jsCeilDiv]
  by_cases h : data.images.length > 0
  · rw [if_pos h, List.drop_take]
    congr 1
    have : (i + 1) * ((data.images.length + data.source_documents.length - 1) /
        data.source_documents.length)
        = i * ((data.images.length + data.source_documents.length - 1) /
        data.source_documents.length)
        + ((data.images.length + data.source_documents.length - 1) /
        data.source_documents.length) := by
      rw [Nat.succ_mul]
    omega
  · rw [if_neg h]
    have he : data.images = [] := List.length_eq_zero.mp (by omega)
    simp [he]

/-- C5 witness: three images split over two documents give the document at
position 1 the slice starting at index 2. -/
theorem evenSplit_c5_witness :
    0 < sampleAnswerData.source_documents.length
    ∧ (renderUiSourceDoc sampleAnswerData emptySourceDoc 1).galleryImages =
        claimEvenSplitSlice sampleAnswerData.images
          sampleAnswerData.source_documents.length 1 :=
  ⟨by decide, evenSplit_c5 sampleAnswerData emptySourceDoc 1 (by decide)⟩

/-- C6 counterexample: on a response whose answer field is the empty
string, the search.js display path shows an error banner through the same
error element used for hard failures, and returns before rendering the
no-results message or clearing the source list — not the well-formed
no-answer rendering the claim describes. -/
theorem noAnswer_claim_counterexample_c6 :
    displayAnswerSearch ⟨some "", [], []⟩
      = .errorShown "생성된 답변이 없습니다." := by
  decide

/-- C6 amended: on an empty or absent answer the ui.js path renders the
no-results message with the source list cleared, while the search.js path
surfaces the error message about a missing generated answer and stops;
neither path crashes. -/
theorem noAnswer_amended_c6 (data : AnswerData)
    (h : jsTruthyStr data.answer = false) :
    displayAnswerUi data = ⟨.noResultsMsg, .cleared⟩
    ∧ displayAnswerSearch data = .errorShown "생성된 답변이 없습니다." := by
  constructor
  · simp [displayAnswerUi, h]
  · simp [displayAnswerSearch, h]

/-- C6 witness: the amended statement at a response with an absent answer
field. -/
theorem noAnswer_amended_c6_witness :
    jsTruthyStr (AnswerData.mk none [] ["x"]).answer = false
    ∧ (displayAnswerUi ⟨none, [], ["x"]⟩ = ⟨.noResultsMsg, .cleared⟩
        ∧ displayAnswerSearch ⟨none, [], ["x"]⟩
            = .errorShown "생성된 답변이 없습니다.") :=
  ⟨by decide, noAnswer_amended_c6 ⟨none, [], ["x"]⟩ (by decide)⟩

/-- C10: in the search.js path the score element is rendered exactly when
searchScore is truthy, and in the ui.js path the similarity element is
rendered exactly when similarity is truthy; a score that is exactly 0 is
falsy, so such a result is displayed without any score element. -/
theorem scoreTruthiness_c10 (doc : SourceDoc) (data : AnswerData) (i : Nat) :
    ((createSourceDocumentElement doc).scoreShown ≠ none
        ↔ jsTruthyRat doc.searchScore = true)
    ∧ ((renderUiSourceDoc data doc i).similarityShown ≠ none
        ↔ jsTruthyRat doc.similarity = true)
    ∧ (createSourceDocumentElement { doc with searchScore := some 0 }).scoreShown = none
    ∧ (renderUiSourceDoc data { doc with similarity := some 0 } i).similarityShown = none := by
  refine ⟨?_, ?_, ?_, ?_⟩
  · simp only [createSourceDocumentElement]
    cases hs : doc.searchScore with
    | none => simp [jsTruthyRat, hs]
    | some v =>
      by_cases hv : v = 0 <;> simp [jsTruthyRat, hs, hv]
  · simp only [renderUiSourceDoc]
    cases hs : doc.similarity with
    | none => simp [jsTruthyRat, hs]
    | some v =>
      by_cases hv : v = 0 <;> simp [jsTruthyRat, hs, hv]
  · simp [createSourceDocumentElement, jsTruthyRat]
  · simp [renderUiSourceDoc, jsTruthyRat]

end RAG
